import Mathlib

/-!
Verification development for the aws-sns-listener repository.

The repository contains three variants of the listener:
  * a top-level main package (queue.go, topic.go, main.go) whose poll loop
    takes handler and errorHandler callbacks;
  * an intermediate main package (unnamed/part_001) whose poll loop takes a
    Consumer interface value;
  * the pkg/listener package, with the entrypoint ListenToTopic
    (pkg/listener/listener.go, pkg/listener/queue.go) and, from a later
    revision, a Listener struct with Setup, Listen and Teardown methods
    (unnamed/part_002 together with pkg/listener/queue.go and
    unnamed/part_006).

Each Go function used by the claims is embedded as an executable Lean
function.  External AWS calls are modelled by an oracle environment
(ListenEnv) giving the outcome of every call, and the poll loop is driven
by a finite script of scheduler events (PollEvent).  Consumer callbacks
are recorded as a trace of CEvent values, and AWS teardown and setup
calls as a trace of AwsCall values.
-/

/-- Model of a Go error value.  The constructor canceled stands for an
error chain that errors.As recognises as a smithy.CanceledError; msg
stands for any other (leaf) error.  Joined errors produced by errors.Join
in Listener.Teardown are modelled separately (see joinErrorList), they
never flow into the poll loop. -/
inductive GoError where
  | canceled : GoError
  | msg : String → GoError
deriving DecidableEq

/-- Boolean form of the Go test errors.As(err, &cancelErr) with cancelErr
a *smithy.CanceledError. -/
def GoError.isCanceled : GoError → Bool
  | .canceled => true
  | .msg _ => false

/-- Model of errors.Join applied to a list of possibly-nil errors: nil when
every argument is nil, otherwise an error wrapping the non-nil arguments
in order. -/
def joinErrorList (es : List (Option GoError)) : Option (List GoError) :=
  match es.filterMap id with
  | [] => none
  | l => some l

deriving instance DecidableEq for Except

/-- An SQS message as used by the poll loops (types.Message restricted to
the three fields the code reads; the code dereferences the pointer fields,
so they are modelled as plain strings). -/
structure Msg where
  body : String
  id : String
  receiptHandle : String
deriving DecidableEq

/-- A consumer callback invocation recorded by a poll loop: either
Consumer.OnError (or the errorHandler callback of the oldest variant) or
Consumer.OnMessage (or the handler callback) with the message body and id. -/
inductive CEvent where
  | onError : GoError → CEvent
  | onMessage : (body : String) → (id : String) → CEvent
deriving DecidableEq

/-- One iteration of the poll loop select statement: either the context
cancellation channel fires first, or the interval timer fires and the
ReceiveMessage call returns the given result.  Each returned message is
paired with the result its DeleteMessage call would produce. -/
inductive PollEvent where
  | ctxDone : PollEvent
  | timer : Except GoError (List (Msg × Except GoError Unit)) → PollEvent
deriving DecidableEq

/-- Outcome of running a poll loop on a finite script: stoppedOk when the
Go function returned cleanly (nil, or plain return for the void variants),
stoppedErr when the pkg/listener variant returned a non-nil error, and
polling when the script was exhausted with the loop still running. -/
inductive LoopResult where
  | polling : LoopResult
  | stoppedOk : LoopResult
  | stoppedErr : GoError → LoopResult
deriving DecidableEq

/-- Message loop body of listenToQueue in pkg/listener/queue.go
(lines 187-231): on a DeleteMessage error that is a cancellation the
function returns nil, on any other DeleteMessage error it returns that
error, and only after a successful deletion is Consumer.OnMessage invoked.
Returns the recorded callback trace and, when the function returned from
inside the message loop, the loop result. -/
def processMessages : List (Msg × Except GoError Unit) → List CEvent × Option LoopResult
  | [] => ([], none)
  | (_, .error e) :: _ =>
    if e.isCanceled then ([], some .stoppedOk) else ([], some (.stoppedErr e))
  | (m, .ok _) :: rest =>
    (CEvent.onMessage m.body m.id :: (processMessages rest).1, (processMessages rest).2)

/-- Poll loop listenToQueue of pkg/listener/queue.go (lines 142-241): on
ctx.Done it returns nil; on a ReceiveMessage error it returns nil when the
error is a cancellation and returns the error otherwise (without invoking
Consumer.OnError); received messages are handled by processMessages. -/
def listenToQueue : List PollEvent → List CEvent × LoopResult
  | [] => ([], .polling)
  | .ctxDone :: _ => ([], .stoppedOk)
  | .timer (.error e) :: _ =>
    if e.isCanceled then ([], .stoppedOk) else ([], .stoppedErr e)
  | .timer (.ok msgs) :: rest =>
    match processMessages msgs with
    | (t, some r) => (t, r)
    | (t, none) => (t ++ (listenToQueue rest).1, (listenToQueue rest).2)

/-- Message loop body of listenToQueue in unnamed/part_001 (lines 150-167):
on a DeleteMessage error Consumer.OnError is invoked, and Consumer.OnMessage
is then invoked for the message in every case; the loop never returns from
inside the message loop. -/
def processMessagesConsumer : List (Msg × Except GoError Unit) → List CEvent
  | [] => []
  | (m, .error e) :: rest =>
    CEvent.onError e :: CEvent.onMessage m.body m.id :: processMessagesConsumer rest
  | (m, .ok _) :: rest =>
    CEvent.onMessage m.body m.id :: processMessagesConsumer rest

/-- Poll loop listenToQueue of unnamed/part_001 (lines 128-174), the
Consumer-interface variant of the main package: a void function; on a
ReceiveMessage error Consumer.OnError is invoked and the loop continues
with the next cycle; on ctx.Done the function returns. -/
def listenToQueueConsumer : List PollEvent → List CEvent × LoopResult
  | [] => ([], .polling)
  | .ctxDone :: _ => ([], .stoppedOk)
  | .timer (.error e) :: rest =>
    (CEvent.onError e :: (listenToQueueConsumer rest).1, (listenToQueueConsumer rest).2)
  | .timer (.ok msgs) :: rest =>
    (processMessagesConsumer msgs ++ (listenToQueueConsumer rest).1,
      (listenToQueueConsumer rest).2)

/-- Message loop body of listenToQueue in the top-level queue.go
(lines 120-134): on a DeleteMessage error the errorHandler callback is
invoked, and the handler callback is then invoked for the message in every
case. -/
def processMessagesHandler : List (Msg × Except GoError Unit) → List CEvent
  | [] => []
  | (m, .error e) :: rest =>
    CEvent.onError e :: CEvent.onMessage m.body m.id :: processMessagesHandler rest
  | (m, .ok _) :: rest =>
    CEvent.onMessage m.body m.id :: processMessagesHandler rest

/-- Poll loop listenToQueue of the top-level queue.go (lines 98-141), the
handler-and-errorHandler variant of the main package: a void function; on a
ReceiveMessage error the errorHandler callback is invoked and the loop
continues with the next cycle; on ctx.Done the function returns. -/
def listenToQueueHandler : List PollEvent → List CEvent × LoopResult
  | [] => ([], .polling)
  | .ctxDone :: _ => ([], .stoppedOk)
  | .timer (.error e) :: rest =>
    (CEvent.onError e :: (listenToQueueHandler rest).1, (listenToQueueHandler rest).2)
  | .timer (.ok msgs) :: rest =>
    (processMessagesHandler msgs ++ (listenToQueueHandler rest).1,
      (listenToQueueHandler rest).2)

/-- One second expressed in the units of Go time.Duration (nanoseconds). -/
def oneSecond : Int := 1000000000

/-- FIFO test isTopicFIFO of pkg/listener/topic.go (unnamed/part_006 lines
89-94): regexp.MatchString with the anchored pattern backslash-dot-fifo-dollar,
which holds exactly when the topic ARN ends with the literal suffix ".fifo".
The regular expression itself is constant and valid, so the error result of
regexp.MatchString is always nil and is not modelled.  The suffix match is
expressed on the character lists of the strings. -/
def isTopicFIFO (topicArn : String) : Bool :=
  ".fifo".toList.isSuffixOf topicArn.toList

/-- Access policy attached to the created queue by createQueue in
pkg/listener/queue.go (lines 58-72): the Go format string with the topic
ARN substituted for the percent-s verb. -/
def queuePolicy (topicArn : String) : String :=
  "\x7b\n\t\t\"Version\": \"2012-10-17\",\n\t\t\"Statement\": [\x7b\n\t\t\t\"Effect\": \"Allow\",\n\t\t\t\"Principal\": \x7b\n\t\t\t\t\"Service\": \"sns.amazonaws.com\"\n\t\t\t\x7d,\n\t\t\t\"Action\": \"sqs:SendMessage\",\n\t\t\t\"Resource\": \"*\",\n\t\t\t\"Condition\": \x7b\n\t\t\t\t\"ArnEquals\": \x7b\n\t\t\t\t\t\"aws:SourceArn\": \"" ++ topicArn ++ "\"\n\t\t\t\t\x7d\n\t\t\t\x7d\n\t\t\x7d]\n\t\x7d"

/-- Queue name computed by createQueue in pkg/listener/queue.go: when the
configured name is empty a generated name is used (the fixed prefix
"sns-listener-" followed by a v4 UUID, supplied here by the environment),
and when the topic is FIFO the suffix ".fifo" is appended. -/
def buildQueueName (uuid queueName topicArn : String) : String :=
  let base := if queueName = "" then "sns-listener-" ++ uuid else queueName
  if isTopicFIFO topicArn then base ++ ".fifo" else base

/-- Queue attributes computed by createQueue in pkg/listener/queue.go
(lines 74-82): always the access policy, plus the FifoQueue and
ContentBasedDeduplication flags when the topic is FIFO.  The Go map is
modelled as an association list. -/
def buildQueueAttributes (topicArn : String) : List (String × String) :=
  [("Policy", queuePolicy topicArn)] ++
    (if isTopicFIFO topicArn then
      [("FifoQueue", "true"), ("ContentBasedDeduplication", "true")]
    else [])

/-- The sqs.CreateQueueInput value passed to the CreateQueue call. -/
structure CreateQueueInput where
  queueName : String
  attributes : List (String × String)
deriving DecidableEq

/-- Input built by createQueue of pkg/listener/queue.go for its CreateQueue
call. -/
def createQueueInput (uuid queueName topicArn : String) : CreateQueueInput :=
  ⟨buildQueueName uuid queueName topicArn, buildQueueAttributes topicArn⟩

/-- Oracle environment giving the outcome of every external AWS call and
the UUID that uuid.NewString would generate for this run. -/
structure ListenEnv where
  uuid : String
  getParameter : String → Except GoError String
  createQueue : CreateQueueInput → Except GoError String
  getQueueAttributes : String → Except GoError (List (String × String))
  subscribe : (topicArn : String) → (queueArn : String) → Except GoError String
  unsubscribe : String → Except GoError Unit
  deleteQueue : String → Except GoError Unit

/-- Go map read m[k] on a string-keyed map with a missing key yielding the
zero value (the empty string). -/
def lookupAttr (attrs : List (String × String)) (k : String) : String :=
  match attrs.find? (fun p => p.1 == k) with
  | some p => p.2
  | none => ""

/-- createQueue of pkg/listener/queue.go (lines 44-112): builds the queue
name and attributes and issues the CreateQueue call, returning the new
queue URL or the call error. -/
def createQueue (env : ListenEnv) (queueName topicArn : String) : Except GoError String :=
  env.createQueue (createQueueInput env.uuid queueName topicArn)

/-- getQueueArn of pkg/listener/queue.go (lines 114-140): issues
GetQueueAttributes requesting the QueueArn attribute and returns
result.Attributes["QueueArn"], which is the empty string when the attribute
is absent from a successful reply. -/
def getQueueArn (env : ListenEnv) (queueUrl : String) : Except GoError String :=
  match env.getQueueAttributes queueUrl with
  | .error e => .error e
  | .ok attrs => .ok (lookupAttr attrs "QueueArn")

/-- subscribeToTopic of pkg/listener/topic.go, string-parameter revision
(unnamed/part_006 lines 26-58): issues the Subscribe call and returns the
subscription ARN or the call error. -/
def subscribeToTopic (env : ListenEnv) (topicArn queueArn : String) : Except GoError String :=
  env.subscribe topicArn queueArn

/-- unsubscribeFromTopic of pkg/listener/topic.go, string-parameter
revision (unnamed/part_006 lines 60-87): issues the Unsubscribe call and
returns its error, nil on success. -/
def unsubscribeFromTopic (env : ListenEnv) (subscriptionArn : String) : Except GoError Unit :=
  env.unsubscribe subscriptionArn

/-- deleteQueue of pkg/listener/queue.go (lines 243-270): issues the
DeleteQueue call and returns its error, nil on success. -/
def deleteQueue (env : ListenEnv) (queueUrl : String) : Except GoError Unit :=
  env.deleteQueue queueUrl

/-- An AWS API call issued during setup or teardown, recorded in order. -/
inductive AwsCall where
  | getParameter : String → AwsCall
  | createQueue : CreateQueueInput → AwsCall
  | getQueueAttributes : String → AwsCall
  | subscribe : (topicArn : String) → (queueArn : String) → AwsCall
  | unsubscribe : String → AwsCall
  | deleteQueue : String → AwsCall
deriving DecidableEq

/-- Topic ARN resolution step of ListenToTopic (pkg/listener/listener.go
lines 87-97): when a parameter path is configured the SSM parameter value
replaces cfg.TopicArn, otherwise cfg.TopicArn is used as configured. -/
def resolveTopic (env : ListenEnv) (parameterPath topicArn : String) : Except GoError String :=
  if parameterPath = "" then .ok topicArn
  else
    match env.getParameter parameterPath with
    | .error e => .error e
    | .ok v => .ok v

/-- ListenerConfiguration of pkg/listener/listener.go.  PollingInterval is
a Go time.Duration, an int64 count of nanoseconds, modelled as Int. -/
structure ListenerConfiguration where
  pollingInterval : Int
  queueName : String
  parameterPath : String
  topicArn : String
  verbose : Bool

/-- Polling-interval defaulting performed by ListenToTopic
(pkg/listener/listener.go lines 83-85): only an interval equal to zero is
replaced by one second. -/
def normalizePollingInterval (d : Int) : Int :=
  if d = 0 then oneSecond else d

/-- Result of the setup, poll and teardown steps of one ListenToTopic run. -/
structure RunSteps where
  result : Option GoError
  calls : List AwsCall
  consumer : List CEvent

/-- Body of ListenToTopic (pkg/listener/listener.go lines 87-132): resolve
the topic ARN, create the queue, fetch its ARN, subscribe, run the poll
loop, and return nil.  Every early return carries the step error; the
deferred deleteQueue call is registered once the queue exists and the
deferred unsubscribeFromTopic call once the subscription exists, they run
in LIFO order on return and their outcomes are discarded, as is the value
returned by listenToQueue. -/
def listenToTopicSteps (env : ListenEnv) (script : List PollEvent)
    (cfg : ListenerConfiguration) : RunSteps :=
  let calls0 : List AwsCall :=
    if cfg.parameterPath = "" then [] else [.getParameter cfg.parameterPath]
  match resolveTopic env cfg.parameterPath cfg.topicArn with
  | .error e => ⟨some e, calls0, []⟩
  | .ok topicArn =>
    let input := createQueueInput env.uuid cfg.queueName topicArn
    match createQueue env cfg.queueName topicArn with
    | .error e => ⟨some e, calls0 ++ [.createQueue input], []⟩
    | .ok queueUrl =>
      match getQueueArn env queueUrl with
      | .error e =>
        ⟨some e,
          calls0 ++ [.createQueue input, .getQueueAttributes queueUrl,
            .deleteQueue queueUrl], []⟩
      | .ok queueArn =>
        match subscribeToTopic env topicArn queueArn with
        | .error e =>
          ⟨some e,
            calls0 ++ [.createQueue input, .getQueueAttributes queueUrl,
              .subscribe topicArn queueArn, .deleteQueue queueUrl], []⟩
        | .ok subscriptionArn =>
          ⟨none,
            calls0 ++ [.createQueue input, .getQueueAttributes queueUrl,
              .subscribe topicArn queueArn, .unsubscribe subscriptionArn,
              .deleteQueue queueUrl],
            (listenToQueue script).1⟩

/-- Result of one ListenToTopic run, together with the polling interval
that the run passes to listenToQueue. -/
structure RunResult where
  result : Option GoError
  calls : List AwsCall
  consumer : List CEvent
  pollingInterval : Int

/-- ListenToTopic of pkg/listener/listener.go (lines 76-133).  The
cancellation of the run is represented by the poll script; the teardown
defers use a fresh background context and are always issued once
registered. -/
def ListenToTopic (env : ListenEnv) (script : List PollEvent)
    (cfg : ListenerConfiguration) : RunResult :=
  let s := listenToTopicSteps env script cfg
  ⟨s.result, s.calls, s.consumer, normalizePollingInterval cfg.pollingInterval⟩

/-- The Listener struct of the later pkg/listener revision
(unnamed/part_002 lines 27-43).  The AWS clients live in the environment;
the private fields queueUrl and subscriptionArn start as the Go zero value,
the empty string. -/
structure Listener where
  pollingInterval : Int := 0
  queueName : String := ""
  topicArn : String := ""
  verbose : Bool := false
  queueUrl : String := ""
  subscriptionArn : String := ""
deriving DecidableEq

/-- An Option passed to New (unnamed/part_002 lines 45-46). -/
def ListenerOption : Type := Listener → Listener

/-- WithPollingInterval (unnamed/part_002 lines 48-59): a non-positive
interval is rejected and replaced by one second, a positive interval is
stored unchanged. -/
def WithPollingInterval (pollingInterval : Int) : ListenerOption :=
  fun l =>
    if pollingInterval ≤ 0 then { l with pollingInterval := oneSecond }
    else { l with pollingInterval := pollingInterval }

/-- WithQueueName (unnamed/part_002 lines 61-67). -/
def WithQueueName (queueName : String) : ListenerOption :=
  fun l => { l with queueName := queueName }

/-- WithVerbose (unnamed/part_002 lines 69-74). -/
def WithVerbose (verbose : Bool) : ListenerOption :=
  fun l => { l with verbose := verbose }

/-- New (unnamed/part_002 lines 76-89): builds a Listener with the topic
ARN and applies the options in order. -/
def New (topicArn : String) (opts : List ListenerOption) : Listener :=
  opts.foldl (fun l opt => opt l) { topicArn := topicArn }

/-- Result of Listener.Setup: the returned error, the updated Listener, and
the AWS calls issued. -/
structure SetupResult where
  err : Option GoError
  listener : Listener
  calls : List AwsCall
deriving DecidableEq

/-- Listener.Setup (unnamed/part_002 lines 94-131): create the queue, fetch
its ARN, subscribe it to the topic.  The queueUrl field is assigned only
after createQueue succeeds and the subscriptionArn field only after
subscribeToTopic succeeds; any step error is returned immediately. -/
def Listener.Setup (env : ListenEnv) (l : Listener) : SetupResult :=
  let input := createQueueInput env.uuid l.queueName l.topicArn
  match createQueue env l.queueName l.topicArn with
  | .error e => ⟨some e, l, [.createQueue input]⟩
  | .ok queueUrl =>
    let l1 := { l with queueUrl := queueUrl }
    match getQueueArn env queueUrl with
    | .error e => ⟨some e, l1, [.createQueue input, .getQueueAttributes queueUrl]⟩
    | .ok queueArn =>
      match subscribeToTopic env l1.topicArn queueArn with
      | .error e =>
        ⟨some e, l1,
          [.createQueue input, .getQueueAttributes queueUrl,
            .subscribe l1.topicArn queueArn]⟩
      | .ok subscriptionArn =>
        ⟨none, { l1 with subscriptionArn := subscriptionArn },
          [.createQueue input, .getQueueAttributes queueUrl,
            .subscribe l1.topicArn queueArn]⟩

/-- Result of Listener.Teardown: the joined teardown errors (none when both
steps succeeded) and the AWS calls issued. -/
structure TeardownResult where
  errs : Option (List GoError)
  calls : List AwsCall
deriving DecidableEq

/-- Listener.Teardown (unnamed/part_002 lines 146-165): unconditionally
issues the unsubscribe and the queue deletion with whatever values the
fields hold, and returns errors.Join of the two step errors. -/
def Listener.Teardown (env : ListenEnv) (l : Listener) : TeardownResult :=
  let e1 : Option GoError :=
    match unsubscribeFromTopic env l.subscriptionArn with
    | .error e => some e
    | .ok _ => none
  let e2 : Option GoError :=
    match deleteQueue env l.queueUrl with
    | .error e => some e
    | .ok _ => none
  ⟨joinErrorList [e1, e2], [.unsubscribe l.subscriptionArn, .deleteQueue l.queueUrl]⟩

/-- Environment in which every AWS call succeeds, with fixed reply values. -/
def okEnv : ListenEnv :=
  { uuid := "uuid"
    getParameter := fun _ => .ok "param-topic"
    createQueue := fun _ => .ok "qurl"
    getQueueAttributes := fun _ => .ok [("QueueArn", "qarn")]
    subscribe := fun _ _ => .ok "subarn"
    unsubscribe := fun _ => .ok ()
    deleteQueue := fun _ => .ok () }

/-- Environment in which setup succeeds but both teardown calls fail. -/
def teardownFailEnv : ListenEnv :=
  { okEnv with
    unsubscribe := fun _ => .error (.msg "unsubfail")
    deleteQueue := fun _ => .error (.msg "delfail") }

/-- Environment in which setup reaches the Subscribe call and that call
fails. -/
def subscribeFailEnv : ListenEnv :=
  { okEnv with subscribe := fun _ _ => .error (.msg "subfail") }

/-- Environment in which GetQueueAttributes succeeds with a reply that has
no QueueArn attribute. -/
def noArnEnv : ListenEnv :=
  { okEnv with getQueueAttributes := fun _ => .ok [] }

/-- Baseline configuration for the ListenToTopic runs used in witnesses and
counterexamples. -/
def baseCfg : ListenerConfiguration :=
  ⟨oneSecond, "q", "", "topic", false⟩

/-- Script with a single cycle in which one message is received and its
DeleteMessage call fails with a non-cancellation error. -/
def deleteFailScript : List PollEvent :=
  [PollEvent.timer (Except.ok [(⟨"b", "i", "r"⟩, Except.error (GoError.msg "boom"))])]

/-- Script with a single cycle in which the ReceiveMessage call fails with
a non-cancellation error. -/
def receiveFailScript : List PollEvent :=
  [PollEvent.timer (Except.error (GoError.msg "recvboom"))]

/-- Listener used by the C4 counterexample: a fresh Listener for the topic
"topic" with the configured queue name "q". -/
def subFailListener : Listener := { topicArn := "topic", queueName := "q" }

/-- Configuration with a negative polling interval (minus five
nanoseconds). -/
def negCfg : ListenerConfiguration :=
  ⟨-5, "q", "", "topic", false⟩

lemma processMessages_ne_some_polling (msgs : List (Msg × Except GoError Unit)) :
    (processMessages msgs).2 ≠ some LoopResult.polling := by
  induction msgs with
  | nil => simp [processMessages]
  | cons p rest ih =>
    obtain ⟨m, d⟩ := p
    cases d with
    | error e =>
      by_cases hc : e.isCanceled <;> simp [processMessages, hc]
    | ok u => simpa [processMessages] using ih

lemma listenToQueue_append (pre s : List PollEvent) (t : List CEvent)
    (h : listenToQueue pre = (t, LoopResult.polling)) :
    listenToQueue (pre ++ s)
      = (t ++ (listenToQueue s).1, (listenToQueue s).2) := by
  induction pre generalizing t with
  | nil =>
    simp [listenToQueue] at h
    subst h
    simp
  | cons ev rest ih =>
    cases ev with
    | ctxDone => simp [listenToQueue] at h
    | timer recv =>
      cases recv with
      | error e =>
        by_cases hc : e.isCanceled <;> simp [listenToQueue, hc] at h
      | ok msgs =>
        rcases hp : processMessages msgs with ⟨t0, r0⟩
        cases r0 with
        | some r =>
          have hne := processMessages_ne_some_polling msgs
          rw [hp] at hne
          simp [listenToQueue, hp] at h
          rcases h with ⟨h1, h2⟩
          rw [h2] at hne
          simp at hne
        | none =>
          simp only [List.cons_append, listenToQueue, hp] at h ⊢
          rcases Prod.mk.injEq .. ▸ h with ⟨h1, h2⟩
          simp only [List.append_eq]
          rw [ih (listenToQueue rest).1 (by rw [← h2])]
          rw [← h1]
          simp

lemma processMessages_ok_prefix_cancel
    (done : List (Msg × Except GoError Unit)) (m : Msg)
    (ms : List (Msg × Except GoError Unit)) (e : GoError)
    (hd : ∀ p ∈ done, p.2 = Except.ok ()) (hc : e.isCanceled = true) :
    processMessages (done ++ (m, Except.error e) :: ms)
      = (done.map (fun p => CEvent.onMessage p.1.body p.1.id), some LoopResult.stoppedOk) := by
  induction done with
  | nil => simp [processMessages, hc]
  | cons p rest ih =>
    obtain ⟨m0, d⟩ := p
    have hd0 : d = Except.ok () := hd ⟨m0, d⟩ (by simp)
    subst hd0
    simp [processMessages, ih (fun q hq => hd q (by simp [hq]))]

lemma onError_notin_processMessages (msgs : List (Msg × Except GoError Unit))
    (e : GoError) : CEvent.onError e ∉ (processMessages msgs).1 := by
  induction msgs with
  | nil => simp [processMessages]
  | cons p rest ih =>
    obtain ⟨m, d⟩ := p
    cases d with
    | error e2 => by_cases hc : e2.isCanceled <;> simp [processMessages, hc]
    | ok u => simpa [processMessages] using ih

lemma onError_notin_listenToQueue (s : List PollEvent) (e : GoError) :
    CEvent.onError e ∉ (listenToQueue s).1 := by
  induction s with
  | nil => simp [listenToQueue]
  | cons ev rest ih =>
    cases ev with
    | ctxDone => simp [listenToQueue]
    | timer recv =>
      cases recv with
      | error e2 => by_cases hc : e2.isCanceled <;> simp [listenToQueue, hc]
      | ok msgs =>
        rcases hp : processMessages msgs with ⟨t0, r0⟩
        have hm := onError_notin_processMessages msgs e
        rw [hp] at hm
        cases r0 with
        | some r => simpa [listenToQueue, hp] using hm
        | none =>
          simp [listenToQueue, hp]
          exact ⟨hm, ih⟩

/-- C6: in the pkg/listener poll loop, an in-flight ReceiveMessage or
DeleteMessage call that fails because the context was cancelled is a clean
stop: the loop returns nil (transitions to Stopped without an error) and
Consumer.OnError is not invoked for that failure (this poll loop never
invokes OnError at all). -/
theorem listenToQueue_cancellation_clean_stop
    (pre rest : List PollEvent) (t : List CEvent) (e : GoError)
    (hpre : listenToQueue pre = (t, LoopResult.polling))
    (hc : e.isCanceled = true) :
    listenToQueue (pre ++ PollEvent.timer (Except.error e) :: rest)
      = (t, LoopResult.stoppedOk)
    ∧ (∀ (done : List (Msg × Except GoError Unit)) (m : Msg)
        (ms : List (Msg × Except GoError Unit)),
        (∀ p ∈ done, p.2 = Except.ok ()) →
        listenToQueue
            (pre ++ PollEvent.timer (Except.ok (done ++ (m, Except.error e) :: ms)) :: rest)
          = (t ++ done.map (fun p => CEvent.onMessage p.1.body p.1.id),
             LoopResult.stoppedOk))
    ∧ (∀ (s : List PollEvent) (e2 : GoError), CEvent.onError e2 ∉ (listenToQueue s).1) := by
  refine ⟨?_, ?_, ?_⟩
  · rw [listenToQueue_append pre _ t hpre]
    simp [listenToQueue, hc]
  · intro done m ms hd
    rw [listenToQueue_append pre _ t hpre]
    simp [listenToQueue, processMessages_ok_prefix_cancel done m ms e hd hc]
  · exact fun s e2 => onError_notin_listenToQueue s e2

/-- Witness for C6: a cancelled ReceiveMessage call on the first cycle
stops the loop cleanly. -/
theorem listenToQueue_cancellation_clean_stop_witness :
    listenToQueue ([] ++ PollEvent.timer (Except.error GoError.canceled) :: [])
      = ([], LoopResult.stoppedOk) :=
  (listenToQueue_cancellation_clean_stop [] [] [] GoError.canceled rfl rfl).1

/-- C7: for every topic identifier ending in ".fifo" the queue name passed
to the CreateQueue call is the configured (or generated) name with ".fifo"
appended and the creation attributes contain FifoQueue=true and
ContentBasedDeduplication=true; for every other topic identifier the name
gets no suffix and neither attribute is present. -/
theorem createQueue_fifo_attributes (uuid qn ta : String) :
    (isTopicFIFO ta = true →
      (createQueueInput uuid qn ta).queueName
          = (if qn = "" then "sns-listener-" ++ uuid else qn) ++ ".fifo"
        ∧ ("FifoQueue", "true") ∈ (createQueueInput uuid qn ta).attributes
        ∧ ("ContentBasedDeduplication", "true") ∈ (createQueueInput uuid qn ta).attributes)
    ∧ (isTopicFIFO ta = false →
      (createQueueInput uuid qn ta).queueName
          = (if qn = "" then "sns-listener-" ++ uuid else qn)
        ∧ ("FifoQueue", "true") ∉ (createQueueInput uuid qn ta).attributes
        ∧ ("ContentBasedDeduplication", "true") ∉ (createQueueInput uuid qn ta).attributes) := by
  constructor <;> intro h <;>
    simp [createQueueInput, buildQueueName, buildQueueAttributes, h]

/-- Witness for C7: a FIFO topic with a generated queue name and a non-FIFO
topic with a configured queue name. -/
theorem createQueue_fifo_attributes_witness :
    ((createQueueInput "u" "" "t.fifo").queueName
        = (if "" = "" then "sns-listener-" ++ "u" else "") ++ ".fifo"
      ∧ ("FifoQueue", "true") ∈ (createQueueInput "u" "" "t.fifo").attributes
      ∧ ("ContentBasedDeduplication", "true") ∈ (createQueueInput "u" "" "t.fifo").attributes)
    ∧ (("FifoQueue", "true") ∉ (createQueueInput "u" "q" "t").attributes) :=
  ⟨(createQueue_fifo_attributes "u" "" "t.fifo").1 (by decide),
   ((createQueue_fifo_attributes "u" "q" "t").2 (by decide)).2.1⟩

/-- C8: once resolution, queue creation, ARN fetch and subscription have
succeeded, ListenToTopic always returns nil: the poll loop runs on the
given script and both deferred teardown calls are issued, but their
outcomes and the loop result never reach the return value. -/
theorem ListenToTopic_nil_after_setup
    (env : ListenEnv) (script : List PollEvent) (cfg : ListenerConfiguration)
    (ta url qarn sa : String)
    (h1 : resolveTopic env cfg.parameterPath cfg.topicArn = Except.ok ta)
    (h2 : createQueue env cfg.queueName ta = Except.ok url)
    (h3 : getQueueArn env url = Except.ok qarn)
    (h4 : subscribeToTopic env ta qarn = Except.ok sa) :
    (ListenToTopic env script cfg).result = none
    ∧ AwsCall.unsubscribe sa ∈ (ListenToTopic env script cfg).calls
    ∧ AwsCall.deleteQueue url ∈ (ListenToTopic env script cfg).calls
    ∧ (ListenToTopic env script cfg).consumer = (listenToQueue script).1 := by
  simp [ListenToTopic, listenToTopicSteps, h1, h2, h3, h4]

/-- Witness for C8: a run whose poll loop ends with a receive error and
whose teardown calls both fail still returns nil. -/
theorem ListenToTopic_nil_after_setup_witness :
    (ListenToTopic teardownFailEnv
        [PollEvent.timer (Except.error (GoError.msg "pollfail"))] baseCfg).result = none
    ∧ AwsCall.unsubscribe "subarn"
        ∈ (ListenToTopic teardownFailEnv
            [PollEvent.timer (Except.error (GoError.msg "pollfail"))] baseCfg).calls
    ∧ AwsCall.deleteQueue "qurl"
        ∈ (ListenToTopic teardownFailEnv
            [PollEvent.timer (Except.error (GoError.msg "pollfail"))] baseCfg).calls
    ∧ (ListenToTopic teardownFailEnv
        [PollEvent.timer (Except.error (GoError.msg "pollfail"))] baseCfg).consumer
        = (listenToQueue [PollEvent.timer (Except.error (GoError.msg "pollfail"))]).1 :=
  ListenToTopic_nil_after_setup teardownFailEnv
    [PollEvent.timer (Except.error (GoError.msg "pollfail"))] baseCfg
    "topic" "qurl" "qarn" "subarn" (by decide) (by decide) (by decide) (by decide)

/-- C9: the Listener fields queueUrl and subscriptionArn are assigned only
after the corresponding create-queue and subscribe calls succeed, so after
any return from Setup each field is non-empty exactly when its resource was
created (given that the AWS replies carry non-empty identifiers), and
Teardown unconditionally issues the unsubscribe and delete-queue calls with
whatever values the fields hold, including the empty string. -/
theorem Setup_fields_track_resources
    (env : ListenEnv) (l : Listener)
    (hq : l.queueUrl = "") (hs : l.subscriptionArn = "")
    (hcreate : ∀ i u, env.createQueue i = Except.ok u → u ≠ "")
    (hsub : ∀ ta qa sa, env.subscribe ta qa = Except.ok sa → sa ≠ "") :
    ((Listener.Setup env l).listener.queueUrl ≠ ""
        ↔ ∃ u, createQueue env l.queueName l.topicArn = Except.ok u)
    ∧ ((Listener.Setup env l).listener.subscriptionArn ≠ ""
        ↔ (Listener.Setup env l).err = none)
    ∧ (Listener.Teardown env (Listener.Setup env l).listener).calls
        = [AwsCall.unsubscribe (Listener.Setup env l).listener.subscriptionArn,
           AwsCall.deleteQueue (Listener.Setup env l).listener.queueUrl] := by
  refine ⟨?_, ?_, ?_⟩
  · rcases h1 : createQueue env l.queueName l.topicArn with e | url
    · simp [Listener.Setup, h1, hq]
    · have hu : url ≠ "" := hcreate _ _ h1
      rcases h2 : getQueueArn env url with e2 | qarn
      · simp [Listener.Setup, h1, h2, hu]
      · rcases h3 : subscribeToTopic env l.topicArn qarn with e3 | sa
        · simp [Listener.Setup, h1, h2, h3, hu]
        · simp [Listener.Setup, h1, h2, h3, hu]
  · rcases h1 : createQueue env l.queueName l.topicArn with e | url
    · simp [Listener.Setup, h1, hs]
    · rcases h2 : getQueueArn env url with e2 | qarn
      · simp [Listener.Setup, h1, h2, hs]
      · rcases h3 : subscribeToTopic env l.topicArn qarn with e3 | sa
        · simp [Listener.Setup, h1, h2, h3, hs]
        · have hsa : sa ≠ "" := hsub _ _ _ h3
          simp [Listener.Setup, h1, h2, h3, hsa]
  · rcases h1 : createQueue env l.queueName l.topicArn with e | url
    · simp [Listener.Setup, Listener.Teardown, h1]
    · rcases h2 : getQueueArn env url with e2 | qarn
      · simp [Listener.Setup, Listener.Teardown, h1, h2]
      · rcases h3 : subscribeToTopic env l.topicArn qarn with e3 | sa
        · simp [Listener.Setup, Listener.Teardown, h1, h2, h3]
        · simp [Listener.Setup, Listener.Teardown, h1, h2, h3]

/-- Witness for C9: a Listener with fresh fields against the
all-succeeding environment. -/
theorem Setup_fields_track_resources_witness :
    (((Listener.Setup okEnv { topicArn := "topic", queueName := "q" }).listener.queueUrl ≠ "")
        ↔ ∃ u, createQueue okEnv "q" "topic" = Except.ok u)
    ∧ (((Listener.Setup okEnv { topicArn := "topic", queueName := "q" }).listener.subscriptionArn ≠ "")
        ↔ (Listener.Setup okEnv { topicArn := "topic", queueName := "q" }).err = none)
    ∧ (Listener.Teardown okEnv
          (Listener.Setup okEnv { topicArn := "topic", queueName := "q" }).listener).calls
        = [AwsCall.unsubscribe
            (Listener.Setup okEnv { topicArn := "topic", queueName := "q" }).listener.subscriptionArn,
           AwsCall.deleteQueue
            (Listener.Setup okEnv { topicArn := "topic", queueName := "q" }).listener.queueUrl] :=
  Setup_fields_track_resources okEnv { topicArn := "topic", queueName := "q" } rfl rfl
    (fun i u h => by
      simp only [okEnv] at h
      injection h with h2
      subst h2
      decide)
    (fun ta qa sa h => by
      simp only [okEnv] at h
      injection h with h2
      subst h2
      decide)

/-- C10: when GetQueueAttributes succeeds but the reply carries no QueueArn
attribute, getQueueArn returns the empty string with a nil error, and
ListenToTopic then proceeds to issue the Subscribe call with the empty
queue ARN. -/
theorem getQueueArn_missing_attribute
    (env : ListenEnv) (url : String) (attrs : List (String × String))
    (script : List PollEvent) (cfg : ListenerConfiguration) (ta : String)
    (h1 : env.getQueueAttributes url = Except.ok attrs)
    (h2 : attrs.find? (fun p => p.1 == "QueueArn") = none) :
    getQueueArn env url = Except.ok ""
    ∧ (resolveTopic env cfg.parameterPath cfg.topicArn = Except.ok ta →
       createQueue env cfg.queueName ta = Except.ok url →
       AwsCall.subscribe ta "" ∈ (ListenToTopic env script cfg).calls) := by
  have hga : getQueueArn env url = Except.ok "" := by
    simp [getQueueArn, h1, lookupAttr, h2]
  refine ⟨hga, ?_⟩
  intro hr hc
  rcases hsub : env.subscribe ta "" with e | sa <;>
    simp [ListenToTopic, listenToTopicSteps, hr, hc, hga, subscribeToTopic, hsub]

/-- Witness for C10: an environment whose attribute reply is the empty
map. -/
theorem getQueueArn_missing_attribute_witness :
    getQueueArn noArnEnv "qurl" = Except.ok ""
    ∧ AwsCall.subscribe "topic" "" ∈ (ListenToTopic noArnEnv [] baseCfg).calls := by
  have h := getQueueArn_missing_attribute noArnEnv "qurl" [] [] baseCfg "topic" rfl rfl
  exact ⟨h.1, h.2 (by decide) (by decide)⟩

/-- C1 counterexample: in the pkg/listener poll loop a received message
whose deletion fails for a non-cancellation reason produces no onError
call, no onMessage call, and ends the loop with the error, refuting the
claim at this input.  -/
theorem listenToQueue_delete_failure_counterexample :
    ¬ (CEvent.onError (GoError.msg "boom") ∈ (listenToQueue deleteFailScript).1
        ∧ CEvent.onMessage "b" "i" ∈ (listenToQueue deleteFailScript).1
        ∧ (listenToQueue deleteFailScript).2 = LoopResult.polling)
    ∧ (listenToQueue deleteFailScript).2 = LoopResult.stoppedErr (GoError.msg "boom") := by
  decide

/-- C1 (amended): in the main-package poll loop (unnamed/part_001) a
message whose deletion fails is reported through Consumer.OnError and still
delivered through Consumer.OnMessage afterwards, and the loop continues
with the remaining cycles; in the pkg/listener poll loop a deletion failure
for a non-cancellation reason instead terminates the loop with that error,
invoking neither callback. -/
theorem listenToQueue_delete_failure_policy
    (m : Msg) (e : GoError) (tail ms : List (Msg × Except GoError Unit))
    (rest : List PollEvent) (hc : e.isCanceled = false) :
    listenToQueueConsumer (PollEvent.timer (Except.ok ((m, Except.error e) :: tail)) :: rest)
      = (CEvent.onError e :: CEvent.onMessage m.body m.id ::
          (processMessagesConsumer tail ++ (listenToQueueConsumer rest).1),
         (listenToQueueConsumer rest).2)
    ∧ listenToQueue (PollEvent.timer (Except.ok ((m, Except.error e) :: ms)) :: rest)
      = ([], LoopResult.stoppedErr e) := by
  constructor
  · simp [listenToQueueConsumer, processMessagesConsumer]
  · simp [listenToQueue, processMessages, hc]

/-- Witness for the amended C1: a concrete failed deletion in each
variant. -/
theorem listenToQueue_delete_failure_policy_witness :
    listenToQueueConsumer
        [PollEvent.timer (Except.ok [(⟨"b", "i", "r"⟩, Except.error (GoError.msg "x"))])]
      = ([CEvent.onError (GoError.msg "x"), CEvent.onMessage "b" "i"], LoopResult.polling)
    ∧ listenToQueue
        [PollEvent.timer (Except.ok [(⟨"b", "i", "r"⟩, Except.error (GoError.msg "x"))])]
      = ([], LoopResult.stoppedErr (GoError.msg "x")) := by
  have h := listenToQueue_delete_failure_policy ⟨"b", "i", "r"⟩ (GoError.msg "x") [] [] [] rfl
  exact ⟨h.1, h.2⟩

/-- C2 counterexample: in the pkg/listener poll loop a ReceiveMessage
failure for a non-cancellation reason produces no onError call and ends
the loop by returning the error, refuting the claim at this input. -/
theorem listenToQueue_receive_failure_counterexample :
    ¬ (CEvent.onError (GoError.msg "recvboom") ∈ (listenToQueue receiveFailScript).1
        ∧ (listenToQueue receiveFailScript).2 = LoopResult.polling)
    ∧ (listenToQueue receiveFailScript).2 = LoopResult.stoppedErr (GoError.msg "recvboom") := by
  decide

/-- C2 (amended): in the top-level main-package poll loop a failed receive
invokes the errorHandler callback and polling continues with the remaining
cycles; in the pkg/listener poll loop a receive failure for a
non-cancellation reason instead terminates the loop by returning that
error, without invoking Consumer.OnError. -/
theorem listenToQueue_receive_failure_policy
    (e : GoError) (rest : List PollEvent) (hc : e.isCanceled = false) :
    listenToQueueHandler (PollEvent.timer (Except.error e) :: rest)
      = (CEvent.onError e :: (listenToQueueHandler rest).1, (listenToQueueHandler rest).2)
    ∧ listenToQueue (PollEvent.timer (Except.error e) :: rest)
      = ([], LoopResult.stoppedErr e) := by
  constructor
  · simp [listenToQueueHandler]
  · simp [listenToQueue, hc]

/-- Witness for the amended C2: a concrete failed receive in each
variant. -/
theorem listenToQueue_receive_failure_policy_witness :
    listenToQueueHandler [PollEvent.timer (Except.error (GoError.msg "y"))]
      = ([CEvent.onError (GoError.msg "y")], LoopResult.polling)
    ∧ listenToQueue [PollEvent.timer (Except.error (GoError.msg "y"))]
      = ([], LoopResult.stoppedErr (GoError.msg "y")) := by
  have h := listenToQueue_receive_failure_policy (GoError.msg "y") [] rfl
  exact ⟨h.1, h.2⟩

/-- C3 counterexample: a ListenToTopic run in which setup succeeds and both
deferred teardown calls fail still returns nil, so the final result of the
run discards the teardown failures, refuting the claim for this variant at
this input. -/
theorem ListenToTopic_teardown_discard_counterexample :
    (ListenToTopic teardownFailEnv [] baseCfg).result = none
    ∧ AwsCall.unsubscribe "subarn" ∈ (ListenToTopic teardownFailEnv [] baseCfg).calls
    ∧ AwsCall.deleteQueue "qurl" ∈ (ListenToTopic teardownFailEnv [] baseCfg).calls
    ∧ teardownFailEnv.unsubscribe "subarn" = Except.error (GoError.msg "unsubfail")
    ∧ teardownFailEnv.deleteQueue "qurl" = Except.error (GoError.msg "delfail") := by
  decide

/-- C3 (amended): teardown always attempts both the unsubscribe and the
queue deletion regardless of each other's outcome, and when both fail
Listener.Teardown reports a single joined error containing both failures;
in the ListenToTopic variant, however, both deferred teardown calls are
issued but their errors are discarded and the function returns nil. -/
theorem Teardown_error_aggregation
    (env : ListenEnv) (l : Listener) (a b : GoError)
    (script : List PollEvent) (cfg : ListenerConfiguration)
    (ta url qarn sa : String)
    (h1 : env.unsubscribe l.subscriptionArn = Except.error a)
    (h2 : env.deleteQueue l.queueUrl = Except.error b) :
    (Listener.Teardown env l).calls
        = [AwsCall.unsubscribe l.subscriptionArn, AwsCall.deleteQueue l.queueUrl]
    ∧ (Listener.Teardown env l).errs = some [a, b]
    ∧ (resolveTopic env cfg.parameterPath cfg.topicArn = Except.ok ta →
       createQueue env cfg.queueName ta = Except.ok url →
       getQueueArn env url = Except.ok qarn →
       subscribeToTopic env ta qarn = Except.ok sa →
        (ListenToTopic env script cfg).result = none
        ∧ AwsCall.unsubscribe sa ∈ (ListenToTopic env script cfg).calls
        ∧ AwsCall.deleteQueue url ∈ (ListenToTopic env script cfg).calls) := by
  refine ⟨?_, ?_, ?_⟩
  · simp [Listener.Teardown]
  · simp [Listener.Teardown, unsubscribeFromTopic, deleteQueue, h1, h2, joinErrorList]
  · intro hr hc hg hs
    simp [ListenToTopic, listenToTopicSteps, hr, hc, hg, hs]

/-- Witness for the amended C3: the environment whose teardown calls both
fail, after a successful setup. -/
theorem Teardown_error_aggregation_witness :
    (Listener.Teardown teardownFailEnv { topicArn := "topic" }).calls
        = [AwsCall.unsubscribe "", AwsCall.deleteQueue ""]
    ∧ (Listener.Teardown teardownFailEnv { topicArn := "topic" }).errs
        = some [GoError.msg "unsubfail", GoError.msg "delfail"]
    ∧ ((ListenToTopic teardownFailEnv [] baseCfg).result = none
        ∧ AwsCall.unsubscribe "subarn" ∈ (ListenToTopic teardownFailEnv [] baseCfg).calls
        ∧ AwsCall.deleteQueue "qurl" ∈ (ListenToTopic teardownFailEnv [] baseCfg).calls) := by
  have h := Teardown_error_aggregation teardownFailEnv { topicArn := "topic" }
    (GoError.msg "unsubfail") (GoError.msg "delfail") [] baseCfg
    "topic" "qurl" "qarn" "subarn" rfl rfl
  exact ⟨h.1, h.2.1, h.2.2 (by decide) (by decide) (by decide) (by decide)⟩

/-- C4 counterexample: in the Listener-struct variant, after a run in which
queue creation succeeded and the subscription step failed, the teardown
issues an unsubscribe call carrying the empty subscription ARN, a teardown
call for a resource that was never created, refuting the claim at this
input. -/
theorem Setup_subscription_failure_counterexample :
    (Listener.Setup subscribeFailEnv subFailListener).err = some (GoError.msg "subfail")
    ∧ AwsCall.unsubscribe ""
        ∈ (Listener.Teardown subscribeFailEnv
            (Listener.Setup subscribeFailEnv subFailListener).listener).calls := by
  decide

/-- C4 (amended): when queue creation succeeds and the subscription step
fails, the run returns the subscription error and the created queue is
still deleted.  In the ListenToTopic variant no teardown call is issued for
the never-created subscription; in the Listener-struct variant Teardown
deletes the created queue but also issues an unsubscribe call with the
empty (never-assigned) subscription ARN. -/
theorem Setup_subscription_failure_rollback
    (env : ListenEnv) (script : List PollEvent) (cfg : ListenerConfiguration)
    (l : Listener) (ta url qarn : String) (e : GoError) :
    (resolveTopic env cfg.parameterPath cfg.topicArn = Except.ok ta →
     createQueue env cfg.queueName ta = Except.ok url →
     getQueueArn env url = Except.ok qarn →
     subscribeToTopic env ta qarn = Except.error e →
      (ListenToTopic env script cfg).result = some e
      ∧ AwsCall.deleteQueue url ∈ (ListenToTopic env script cfg).calls
      ∧ ∀ s, AwsCall.unsubscribe s ∉ (ListenToTopic env script cfg).calls)
    ∧ (l.subscriptionArn = "" →
       createQueue env l.queueName l.topicArn = Except.ok url →
       getQueueArn env url = Except.ok qarn →
       subscribeToTopic env l.topicArn qarn = Except.error e →
      (Listener.Setup env l).err = some e
      ∧ (Listener.Teardown env (Listener.Setup env l).listener).calls
          = [AwsCall.unsubscribe "", AwsCall.deleteQueue url]) := by
  constructor
  · intro hr hc hg hs
    refine ⟨?_, ?_, ?_⟩
    · simp [ListenToTopic, listenToTopicSteps, hr, hc, hg, hs]
    · simp [ListenToTopic, listenToTopicSteps, hr, hc, hg, hs]
    · intro s
      by_cases hp : cfg.parameterPath = ""
      · rw [hp] at hr
        simp [ListenToTopic, listenToTopicSteps, hr, hc, hg, hs, hp]
      · simp [ListenToTopic, listenToTopicSteps, hr, hc, hg, hs, hp]
  · intro hsub hc hg hs
    constructor
    · simp [Listener.Setup, hc, hg, hs]
    · simp [Listener.Setup, Listener.Teardown, hc, hg, hs, hsub]

/-- Witness for the amended C4: a concrete run against the environment
whose Subscribe call fails. -/
theorem Setup_subscription_failure_rollback_witness :
    ((ListenToTopic subscribeFailEnv [] baseCfg).result = some (GoError.msg "subfail")
      ∧ AwsCall.deleteQueue "qurl" ∈ (ListenToTopic subscribeFailEnv [] baseCfg).calls
      ∧ ∀ s, AwsCall.unsubscribe s ∉ (ListenToTopic subscribeFailEnv [] baseCfg).calls)
    ∧ ((Listener.Setup subscribeFailEnv subFailListener).err = some (GoError.msg "subfail")
      ∧ (Listener.Teardown subscribeFailEnv
            (Listener.Setup subscribeFailEnv subFailListener).listener).calls
          = [AwsCall.unsubscribe "", AwsCall.deleteQueue "qurl"]) := by
  have h := Setup_subscription_failure_rollback subscribeFailEnv [] baseCfg
    subFailListener "topic" "qurl" "qarn" (GoError.msg "subfail")
  exact ⟨h.1 (by decide) (by decide) (by decide) (by decide),
         h.2 rfl (by decide) (by decide) (by decide)⟩

/-- C5 counterexample: ListenToTopic leaves a negative polling interval
unchanged instead of replacing it with the one-second default, refuting
the claim at this input. -/
theorem ListenToTopic_negative_interval_counterexample :
    (ListenToTopic okEnv [] negCfg).pollingInterval = -5
    ∧ (-5 : Int) ≠ oneSecond := by
  constructor
  · rfl
  · decide

/-- C5 (amended): the WithPollingInterval option of the Listener-struct
variant replaces every non-positive interval with the one-second default
and keeps every positive interval unchanged, but ListenToTopic replaces
only an interval of exactly zero, passing any non-zero interval (including
negative ones) through unchanged. -/
theorem pollingInterval_defaulting
    (l : Listener) (d : Int) (env : ListenEnv) (script : List PollEvent)
    (cfg : ListenerConfiguration) :
    (d ≤ 0 → (WithPollingInterval d l).pollingInterval = oneSecond)
    ∧ (0 < d → (WithPollingInterval d l).pollingInterval = d)
    ∧ (cfg.pollingInterval = 0 →
        (ListenToTopic env script cfg).pollingInterval = oneSecond)
    ∧ (cfg.pollingInterval ≠ 0 →
        (ListenToTopic env script cfg).pollingInterval = cfg.pollingInterval) := by
  refine ⟨?_, ?_, ?_, ?_⟩
  · intro h
    simp [WithPollingInterval, h]
  · intro h
    simp [WithPollingInterval, not_le.mpr h]
  · intro h
    show normalizePollingInterval cfg.pollingInterval = oneSecond
    simp [normalizePollingInterval, h]
  · intro h
    show normalizePollingInterval cfg.pollingInterval = cfg.pollingInterval
    simp [normalizePollingInterval, h]

/-- Witness for the amended C5: a negative interval through
WithPollingInterval and through ListenToTopic. -/
theorem pollingInterval_defaulting_witness :
    (WithPollingInterval (-7) {}).pollingInterval = oneSecond
    ∧ (ListenToTopic okEnv [] negCfg).pollingInterval = negCfg.pollingInterval := by
  have h := pollingInterval_defaulting {} (-7) okEnv [] negCfg
  exact ⟨h.1 (by decide), h.2.2.2 (by decide)⟩
